import Mathlib

/-!
Shallow embedding of the BSB-Lan HTTP client (`bsblan/bsblan.py`): the
request/response transport core and the parameter-discovery cache.  Raw
parameter maps (Python dicts in iteration order) are modelled as ordered
association lists; the optionally owned lazily-created session is modelled as
an explicit client state; each public operation is a pure function from an
oracle of device responses and the current client state to the new state
together with the list of transport requests it issues.
-/

namespace BSBLan

/-- One entry of the device's raw parameter map: an object with at least a
`value` field.  The device reports values as strings; an absent field is
`none`.  Mirrors the shape consumed by `scan`'s `v.get("value")`. -/
structure Entry where
  value : Option String
deriving DecidableEq

/-- The device's response shape: an ordered mapping from parameter-ID string
to an `Entry`, in dict iteration (insertion) order. -/
abbrev RawMap := List (String × Entry)

/-- Python truthiness of `v.get("value")` for a string-valued field: absent
(`None`) and the empty string are falsy. -/
def entryValid (e : Entry) : Bool :=
  match e.value with
  | none => false
  | some s => !s.isEmpty

/-- A transport request as issued by `_request`: the caller-supplied `uri`
suffix, the optional JSON body `data`, and the optional query parameter map
`params`. -/
structure Req where
  uri : String
  data : Option (List (String × String)) := none
  params : Option (List (String × String)) := none
deriving DecidableEq

/-- Python truthiness of an optional string (`self.username`,
`self.password`): `None` and the empty string are falsy. -/
def truthy (s : Option String) : Bool :=
  match s with
  | none => false
  | some v => !v.isEmpty

/-- Embeds `auth = None; if self.username and self.password: auth =
aiohttp.BasicAuth(self.username, self.password)` from `_request`. -/
def authOf (username password : Option String) : Option (String × String) :=
  if truthy username && truthy password then
    some (username.getD "", password.getD "")
  else
    none

/-- Embeds the base-path computation of `_request`:
`base_path = "/JQ" if data is None else "/JS"`, then
`if self.passkey is not None: base_path = f"/{self.passkey}{base_path}"`. -/
def basePathOf (passkey : Option String) (data : Option (List (String × String))) : String :=
  let bp := if data.isNone then "/JQ" else "/JS"
  match passkey with
  | none => bp
  | some key => "/" ++ key ++ bp

/-- RFC 3986 relative-reference resolution of the caller-supplied `uri`
against the base path, as performed by `URL.build(...).join(URL(uri))`: an
empty reference keeps the base, an absolute path replaces it, and a relative
path is merged onto the base up to its last slash. -/
def joinPath (base uri : String) : String :=
  if uri = "" then base
  else if uri.startsWith "/" then uri
  else String.mk ((base.toList.reverse.dropWhile (fun c => c != '/')).reverse) ++ uri

/-- The full request path built by `_request` for a given configuration. -/
def requestPath (passkey : Option String) (data : Option (List (String × String)))
    (uri : String) : String :=
  joinPath (basePathOf passkey data) uri

/-- The outcome of the underlying `aiohttp` transaction inside the `try`
block of `_request`, before the client's own error classification:
`asyncio.TimeoutError`, the three caught exception classes
(`aiohttp.ClientError`, `aiohttp.ClientResponseError` — also raised by
`raise_for_status()` on a non-2xx status — and `socket.gaierror`), or a
successful transport with its `Content-Type` header (absent allowed) and raw
body text. -/
inductive TransportOutcome where
  | timeout
  | clientError
  | responseError
  | gaierror
  | success (contentType : Option String) (body : String)
deriving DecidableEq

/-- The two user-visible error kinds of the client:
`BSBLanConnectionError msg` and `BSBLanError` carrying the actual content
type and the raw response body. -/
inductive RequestFailure where
  | connection (msg : String)
  | protocol (contentType : String) (body : String)
deriving DecidableEq

/-- Whether `needle` occurs at the front of `hay`. -/
def matchesFront : List Char → List Char → Bool
  | [], _ => true
  | _ :: _, [] => false
  | a :: as, b :: bs => a == b && matchesFront as bs

/-- Whether `needle` occurs contiguously anywhere in `hay`. -/
def hasSubstr (needle : List Char) : List Char → Bool
  | [] => needle.isEmpty
  | b :: bs => matchesFront needle (b :: bs) || hasSubstr needle bs

/-- Python's `"application/json" in content_type` substring test. -/
def containsAppJson (contentType : String) : Bool :=
  hasSubstr "application/json".toList contentType.toList

/-- Embeds the error classification of `_request`: the `except` clauses, the
`Content-Type` check (`response.headers.get("Content-Type", "")`), and the
final `response.json()` decoding, which is applied only on the success path.
`decodeJson` stands for the JSON decoder; it is a parameter so that theorems
can state that failing outcomes never invoke it. -/
def handleOutcome (decodeJson : String → RawMap) :
    TransportOutcome → Except RequestFailure RawMap
  | .timeout =>
      .error (.connection "Timeout occurred while connecting to BSBLan device.")
  | .clientError =>
      .error (.connection "Error occurred while communicating with BSBLan device.")
  | .responseError =>
      .error (.connection "Error occurred while communicating with BSBLan device.")
  | .gaierror =>
      .error (.connection "Error occurred while communicating with BSBLan device.")
  | .success contentType body =>
      let ct := contentType.getD ""
      if containsAppJson ct then .ok (decodeJson body)
      else .error (.protocol ct body)

/-- The session-management slice of the client state: `self._session`
(sessions are identified by a `Nat` handle) and `self._close_session`. -/
structure TClient where
  session : Option Nat
  closeSession : Bool
deriving DecidableEq

/-- Embeds `__init__`: `self._session = session; self._close_session =
False`. -/
def initClient (session : Option Nat) : TClient :=
  { session := session, closeSession := false }

/-- Embeds the lazy session acquisition in `_request`: `if self._session is
None: self._session = aiohttp.ClientSession(); self._close_session = True`.
`fresh` is the handle of the newly created session. -/
def ensureSession (fresh : Nat) (c : TClient) : TClient :=
  match c.session with
  | none => { session := some fresh, closeSession := true }
  | some _ => c

/-- The number of `session.close()` invocations one call of `close()`
performs: embeds `if self._session and self._close_session: await
self._session.close()` (a live `ClientSession` object is truthy). -/
def closeCallCount (c : TClient) : Nat :=
  if c.session.isSome && c.closeSession then 1 else 0

/-- Runs a sequence of `_request` calls as far as session acquisition is
concerned; each element of `freshIds` is the handle the request would give a
newly created session. -/
def runRequests (c : TClient) (freshIds : List Nat) : TClient :=
  freshIds.foldl (fun acc f => ensureSession f acc) c

/-- The parameter-cache slice of the client state: `self._parameters`. -/
structure PClient where
  parameters : Option String
deriving DecidableEq

/-- The bootstrap query issued by `scan()`:
`self._request(uri="", params={"Parameter": "8740,710,700"})`. -/
def scanRequest : Req :=
  { uri := "", params := some [("Parameter", "8740,710,700")] }

/-- The query issued by `state()`:
`self._request("", params={"Parameter": f"{parameters}"})`. -/
def stateRequest (parameters : String) : Req :=
  { uri := "", params := some [("Parameter", parameters)] }

/-- Embeds `data.pop(i)`: removes the entry with key `k` (the first match;
dict keys are unique) while preserving the order of the rest. -/
def popKey (data : RawMap) (k : String) : RawMap :=
  data.eraseP (fun kv => kv.1 == k)

/-- Embeds the body of `scan()`: collect into `notValidData` the keys whose
`value` is falsy, pop each of them from the map, then comma-join the
surviving keys. -/
def scanParams (data : RawMap) : String :=
  let notValidData := (data.filter (fun kv => !entryValid kv.2)).map Prod.fst
  let cleaned := notValidData.foldl popKey data
  String.intercalate "," (cleaned.map Prod.fst)

/-- Embeds `scan()` as a state transformer: issue the bootstrap query against
the response oracle `respond`, compute the comma-joined surviving keys, store
them in `self._parameters` and return them. -/
def scan (respond : Req → RawMap) (c : PClient) : PClient × String :=
  let ps := scanParams (respond scanRequest)
  ({ c with parameters := some ps }, ps)

/-- Embeds `state()`: when no parameter set is cached, first run `scan()`;
then issue the transport query filtered by the cached parameter set.  Returns
the new client state, the number of `scan()` calls made, and the transport
requests issued in order. -/
def state (respond : Req → RawMap) (c : PClient) : PClient × Nat × List Req :=
  match c.parameters with
  | none =>
      let r := scan respond c
      (r.1, 1, [scanRequest, stateRequest r.2])
  | some ps => (c, 0, [stateRequest ps])

/-- Iterates `state` calls, accumulating the total number of `scan()`
calls. -/
def stateN (respond : Req → RawMap) (c : PClient) : Nat → PClient × Nat
  | 0 => (c, 0)
  | Nat.succ n =>
      let r := state respond c
      let rest := stateN respond r.1 n
      (rest.1, r.2.1 + rest.2)

/-- Python dict assignment `d[k] = v` on an insertion-ordered dict: an
existing key keeps its position and gets the new value, a new key is appended
at the end. -/
def dictInsert (d : List (String × String)) (k v : String) : List (String × String) :=
  if d.any (fun kv => kv.1 == k) then
    d.map (fun kv => if kv.1 == k then (k, v) else kv)
  else
    d ++ [(k, v)]

/-- Embeds the payload construction of `thermostat()`: start from the empty
dict, and for each supplied argument set `Parameter`, `Value`/`EnumValue` and
`Type` in source order. -/
def thermostatPayload (target_temperature hvac_mode : Option String) :
    List (String × String) :=
  let st : List (String × String) := []
  let st :=
    match target_temperature with
    | none => st
    | some t => dictInsert (dictInsert (dictInsert st "Parameter" "710") "Value" t) "Type" "1"
  match hvac_mode with
  | none => st
  | some m => dictInsert (dictInsert (dictInsert st "Parameter" "700") "EnumValue" m) "Type" "1"

/-- Embeds `thermostat()` as the list of transport requests it issues: exactly
one write request `self._request("", data=state)` carrying the built
payload. -/
def thermostat (target_temperature hvac_mode : Option String) : List Req :=
  [{ uri := "", data := some (thermostatPayload target_temperature hvac_mode) }]

/-- Claim C5: for every request the base path is `/JQ` without a body and
`/JS` with one; a configured passkey is prepended as a path segment, giving
`/key/JQ` or `/key/JS`; and the caller-supplied path suffix is joined onto
this base. -/
theorem url_base_path (passkey : Option String)
    (data : Option (List (String × String))) (uri : String) :
    basePathOf none data = (if data.isNone then "/JQ" else "/JS")
    ∧ (∀ key, basePathOf (some key) data = "/" ++ key ++ (if data.isNone then "/JQ" else "/JS"))
    ∧ requestPath passkey data uri = joinPath (basePathOf passkey data) uri := by
  refine ⟨rfl, fun key => rfl, rfl⟩

/-- Claim C6: a thermostat call with only a target temperature of `19.0`
sends the write body with pairs `Parameter ↦ 710`, `Value ↦ 19.0`,
`Type ↦ 1`; a call with only an HVAC mode of `3` sends `Parameter ↦ 700`,
`EnumValue ↦ 3`, `Type ↦ 1`. -/
theorem thermostat_single_field_bodies :
    thermostat (some "19.0") none
      = [{ uri := "", data := some [("Parameter", "710"), ("Value", "19.0"), ("Type", "1")] }]
    ∧ thermostat none (some "3")
      = [{ uri := "", data := some [("Parameter", "700"), ("EnumValue", "3"), ("Type", "1")] }] := by
  decide

/-- Claim C10: a thermostat call with neither argument still issues exactly
one write request whose JSON body is the empty object, and a request carrying
a body (even an empty one) goes to the `/JS` write path. -/
theorem thermostat_empty_body :
    thermostat none none = [{ uri := "", data := some [] }]
    ∧ (thermostat none none).length = 1
    ∧ basePathOf none (some []) = "/JS" := by
  decide

/-- Claim C4: every failure of `_request` is classified in priority order: a
timeout yields a connection error with no JSON decoding performed (the result
is independent of the decoder `decodeJson`); every transport/network-level
failure — client error, non-2xx status (`raise_for_status`), DNS failure —
yields a connection error; a successful transport whose content type does not
contain `application/json` yields a protocol error carrying the actual
content type and the raw body; and only a successful transport with a JSON
content type reaches the decoder. -/
theorem request_failure_classification (decodeJson : String → RawMap) :
    handleOutcome decodeJson .timeout
      = .error (.connection "Timeout occurred while connecting to BSBLan device.")
    ∧ handleOutcome decodeJson .clientError
      = .error (.connection "Error occurred while communicating with BSBLan device.")
    ∧ handleOutcome decodeJson .responseError
      = .error (.connection "Error occurred while communicating with BSBLan device.")
    ∧ handleOutcome decodeJson .gaierror
      = .error (.connection "Error occurred while communicating with BSBLan device.")
    ∧ (∀ contentType body, containsAppJson (contentType.getD "") = false →
        handleOutcome decodeJson (.success contentType body)
          = .error (.protocol (contentType.getD "") body))
    ∧ (∀ contentType body, containsAppJson (contentType.getD "") = true →
        handleOutcome decodeJson (.success contentType body) = .ok (decodeJson body)) := by
  refine ⟨rfl, rfl, rfl, rfl, ?_, ?_⟩ <;>
    · intro contentType body h
      simp [handleOutcome, h]

/-- Witness for C4: a `text/html` response turns into a protocol error
carrying the content type and body, and a `application/json; charset=utf-8`
response reaches the decoder. -/
theorem request_failure_classification_witness :
    handleOutcome (fun _ => []) (.success (some "text/html") "<html>oops</html>")
      = .error (.protocol "text/html" "<html>oops</html>")
    ∧ handleOutcome (fun _ => []) (.success (some "application/json; charset=utf-8") "[]")
      = .ok [] :=
  ⟨(request_failure_classification (fun _ => [])).2.2.2.2.1
      (some "text/html") "<html>oops</html>" (by decide),
   (request_failure_classification (fun _ => [])).2.2.2.2.2
      (some "application/json; charset=utf-8") "[]" (by decide)⟩

theorem runRequests_of_isSome (c : TClient) (h : c.session.isSome = true) :
    ∀ freshIds, runRequests c freshIds = c := by
  intro freshIds
  induction freshIds with
  | nil => rfl
  | cons f fs ih =>
      have hc : ensureSession f c = c := by
        unfold ensureSession
        cases hs : c.session with
        | none => rw [hs] at h; simp at h
        | some sid => rfl
      simp only [runRequests, List.foldl_cons] at *
      rw [hc, ih]

/-- Claim C7: one `close()` call closes the underlying session exactly once
when the client created the session itself (owned, i.e. at least one request
ran with no caller-supplied session), never closes a caller-supplied
(borrowed) session no matter how many requests ran, and is a no-op when no
session was ever created. -/
theorem close_session_ownership :
    (∀ sid freshIds, closeCallCount (runRequests (initClient (some sid)) freshIds) = 0)
    ∧ (∀ freshIds, freshIds ≠ [] →
        closeCallCount (runRequests (initClient none) freshIds) = 1)
    ∧ closeCallCount (initClient none) = 0 := by
  refine ⟨?_, ?_, rfl⟩
  · intro sid freshIds
    have h : runRequests (initClient (some sid)) freshIds = initClient (some sid) :=
      runRequests_of_isSome (initClient (some sid)) rfl freshIds
    rw [h]; rfl
  · intro freshIds hne
    cases freshIds with
    | nil => exact absurd rfl hne
    | cons f fs =>
        have h1 : ensureSession f (initClient none)
            = { session := some f, closeSession := true } := rfl
        have h2 : runRequests { session := some f, closeSession := true } fs
            = { session := some f, closeSession := true } :=
          runRequests_of_isSome { session := some f, closeSession := true } rfl fs
        simp only [runRequests, List.foldl_cons] at *
        rw [h1, h2]
        rfl

/-- Witness for C7: a borrowed session survives two requests unclosed, and an
owned session created by a single request is closed exactly once. -/
theorem close_session_ownership_witness :
    closeCallCount (runRequests (initClient (some 0)) [1, 2]) = 0
    ∧ closeCallCount (runRequests (initClient none) [5]) = 1 :=
  ⟨close_session_ownership.1 0 [1, 2],
   close_session_ownership.2.1 [5] (by decide)⟩

/-- Counterexample to claim C8: with the username configured as the empty
string and a non-empty password, both credentials are configured (present),
yet the request carries no HTTP Basic credentials — `if self.username and
self.password` tests Python truthiness, not presence. -/
theorem auth_configured_counterexample :
    (some "" : Option String).isSome = true
    ∧ (some "secret" : Option String).isSome = true
    ∧ authOf (some "") (some "secret") = none := by
  decide

/-- Claim C8 (amended): HTTP Basic credentials are attached if and only if
both username and password are configured as non-empty strings; when either
is unset or empty the request is sent unauthenticated, and no error is
raised. -/
theorem auth_attached_iff_truthy (username password : Option String) :
    (truthy username = false ∨ truthy password = false → authOf username password = none)
    ∧ (∀ u p, username = some u → password = some p → u ≠ "" → p ≠ "" →
        authOf username password = some (u, p)) := by
  constructor
  · intro h
    unfold authOf
    rcases h with h | h <;> simp [h]
  · intro u p hu hp hune hpne
    subst hu; subst hp
    have hue : u.isEmpty = false := by
      cases hu : u.isEmpty with
      | false => rfl
      | true => exact absurd ((String.isEmpty_iff u).mp hu) hune
    have hpe : p.isEmpty = false := by
      cases hp : p.isEmpty with
      | false => rfl
      | true => exact absurd ((String.isEmpty_iff p).mp hp) hpne
    have hut : truthy (some u) = true := by simp [truthy, hue]
    have hpt : truthy (some p) = true := by simp [truthy, hpe]
    simp [authOf, hut, hpt]

/-- Witness for the amended C8: empty-string username disables auth; full
non-empty credentials attach them. -/
theorem auth_attached_iff_truthy_witness :
    authOf (some "") (some "x") = none
    ∧ authOf (some "admin") (some "pw") = some ("admin", "pw") :=
  ⟨(auth_attached_iff_truthy (some "") (some "x")).1 (Or.inl (by decide)),
   (auth_attached_iff_truthy (some "admin") (some "pw")).2 "admin" "pw" rfl rfl
      (by decide) (by decide)⟩

/-- Counterexample to claim C3: calling thermostat with both a target
temperature and an HVAC mode does not send the mode-only payload — the
temperature's `Value` entry survives in the body alongside `EnumValue`, so
the payload carries more than the single mode parameter+value pair. -/
theorem thermostat_both_counterexample :
    thermostatPayload (some "19.0") (some "3") ≠ thermostatPayload none (some "3")
    ∧ ("Value", "19.0") ∈ thermostatPayload (some "19.0") (some "3") := by
  decide

/-- Claim C3 (amended): when both a target temperature and an HVAC mode are
given, the mode's `Parameter` and `Type` assignments overwrite the
temperature's, so the payload's single `Parameter` key is the mode's `700`
and only the HVAC mode parameter is addressed by the write; the temperature's
`Value` entry, however, is not removed and is sent alongside `EnumValue`. -/
theorem thermostat_both_payload (t m : String) :
    thermostatPayload (some t) (some m)
      = [("Parameter", "700"), ("Value", t), ("Type", "1"), ("EnumValue", m)]
    ∧ (thermostatPayload (some t) (some m)).lookup "Parameter" = some "700"
    ∧ thermostat (some t) (some m)
      = [{ uri := "",
           data := some [("Parameter", "700"), ("Value", t), ("Type", "1"), ("EnumValue", m)] }] := by
  refine ⟨?_, ?_, ?_⟩ <;> simp [thermostat, thermostatPayload, dictInsert, List.lookup]

theorem keyInj {data : RawMap} (h : (data.map Prod.fst).Nodup)
    {kv kv' : String × Entry} (h1 : kv ∈ data) (h2 : kv' ∈ data)
    (he : kv.1 = kv'.1) : kv = kv' := by
  induction data with
  | nil => cases h1
  | cons a rest ih =>
      rw [List.map_cons, List.nodup_cons] at h
      rcases List.mem_cons.mp h1 with rfl | h1t
      · rcases List.mem_cons.mp h2 with rfl | h2t
        · rfl
        · have hm : kv.1 ∈ rest.map Prod.fst :=
            he ▸ List.mem_map_of_mem Prod.fst h2t
          exact absurd hm h.1
      · rcases List.mem_cons.mp h2 with rfl | h2t
        · have hm : kv'.1 ∈ rest.map Prod.fst :=
            he ▸ List.mem_map_of_mem Prod.fst h1t
          exact absurd hm h.1
        · exact ih h.2 h1t h2t

theorem popKey_eq_filter {data : RawMap} (h : (data.map Prod.fst).Nodup) (k : String) :
    popKey data k = data.filter (fun kv => !(kv.1 == k)) := by
  induction data with
  | nil => rfl
  | cons a rest ih =>
      rw [List.map_cons, List.nodup_cons] at h
      by_cases hk : a.1 = k
      · have hb : (a.1 == k) = true := beq_iff_eq.mpr hk
        have hrest : rest.filter (fun kv => !(kv.1 == k)) = rest := by
          apply List.filter_eq_self.mpr
          intro kv hkv
          have hne : kv.1 ≠ k := by
            intro hc
            apply h.1
            rw [hk, ← hc]
            exact List.mem_map_of_mem Prod.fst hkv
          simp [hne]
        simp [popKey, List.eraseP_cons, hb, List.filter_cons, hrest]
      · have hb : (a.1 == k) = false := beq_eq_false_iff_ne.mpr hk
        have htail : popKey rest k = rest.filter (fun kv => !(kv.1 == k)) := ih h.2
        simp [popKey, List.eraseP_cons, hb, List.filter_cons] at *
        exact htail

theorem foldl_popKey_eq_filter {data : RawMap} (h : (data.map Prod.fst).Nodup)
    (ks : List String) :
    ks.foldl popKey data = data.filter (fun kv => !(ks.any (fun k => kv.1 == k))) := by
  induction ks generalizing data with
  | nil => simp
  | cons k ks ih =>
      rw [List.foldl_cons, popKey_eq_filter h k]
      have hnd : ((data.filter (fun kv => !(kv.1 == k))).map Prod.fst).Nodup :=
        List.Nodup.sublist ((List.filter_sublist data).map Prod.fst) h
      rw [ih hnd, List.filter_filter]
      have hfun : (fun kv : String × Entry =>
            !(ks.any (fun k' => kv.1 == k')) && !(kv.1 == k))
          = (fun kv : String × Entry => !((k :: ks).any (fun k' => kv.1 == k'))) := by
        funext kv
        simp [List.any_cons, Bool.and_comm]
      rw [hfun]

theorem foldl_popKey_all_keys : ∀ data : RawMap, (data.map Prod.fst).foldl popKey data = [] := by
  intro data
  induction data with
  | nil => rfl
  | cons a rest ih =>
      have hpop : popKey (a :: rest) a.1 = rest := by
        simp [popKey, List.eraseP_cons]
      rw [List.map_cons, List.foldl_cons, hpop]
      exact ih

theorem mem_notValid_keys {data : RawMap} (h : (data.map Prod.fst).Nodup)
    {kv : String × Entry} (hkv : kv ∈ data) :
    (((data.filter (fun kv => !entryValid kv.2)).map Prod.fst).any (fun k => kv.1 == k))
      = !entryValid kv.2 := by
  cases hv : entryValid kv.2 with
  | true =>
      simp only [Bool.not_true]
      rw [List.any_eq_false]
      intro k hk
      rw [List.mem_map] at hk
      obtain ⟨kv', hkv', rfl⟩ := hk
      rw [List.mem_filter] at hkv'
      intro hbeq
      have heq : kv.1 = kv'.1 := beq_iff_eq.mp hbeq
      have hkk : kv = kv' := keyInj h hkv hkv'.1 heq
      rw [hkk] at hv
      rw [hv] at hkv'
      simp at hkv'
  | false =>
      simp only [Bool.not_false]
      rw [List.any_eq_true]
      refine ⟨kv.1, ?_, by simp⟩
      exact List.mem_map_of_mem Prod.fst (List.mem_filter.mpr ⟨hkv, by simp [hv]⟩)

theorem scanParams_eq_filter {data : RawMap} (h : (data.map Prod.fst).Nodup) :
    scanParams data
      = String.intercalate "," ((data.filter (fun kv => entryValid kv.2)).map Prod.fst) := by
  show String.intercalate ","
      ((((data.filter (fun kv => !entryValid kv.2)).map Prod.fst).foldl popKey data).map
        Prod.fst)
    = String.intercalate "," ((data.filter (fun kv => entryValid kv.2)).map Prod.fst)
  rw [foldl_popKey_eq_filter h]
  congr 1
  congr 1
  apply List.filter_congr
  intro kv hkv
  rw [mem_notValid_keys h hkv]
  simp

/-- Claim C1: for every scan response map with distinct parameter IDs (a
Python dict), `scan()` returns, and stores as the cached parameter set,
exactly the comma-joined IDs whose `value` field is present and truthy, in
the map's encounter order; IDs with an absent or empty value are excluded. -/
theorem scan_filters_valid_ids (respond : Req → RawMap) (c : PClient)
    (h : ((respond scanRequest).map Prod.fst).Nodup) :
    (scan respond c).2
      = String.intercalate ","
          (((respond scanRequest).filter (fun kv => entryValid kv.2)).map Prod.fst)
    ∧ (scan respond c).1.parameters = some ((scan respond c).2) :=
  ⟨scanParams_eq_filter h, rfl⟩

/-- A concrete scan response used to witness C1: two valid IDs, one with an
absent value and one with an empty value. -/
def demoScanData : RawMap :=
  [("8740", { value := some "22.5" }), ("710", { value := none }),
   ("700", { value := some "1" }), ("999", { value := some "" })]

/-- Witness for C1: on `demoScanData` the scan keeps exactly the two valid
IDs, comma-joined in encounter order, and caches the result. -/
theorem scan_filters_valid_ids_witness :
    ((scan (fun _ => demoScanData) { parameters := none }).2
        = String.intercalate ","
            ((demoScanData.filter (fun kv => entryValid kv.2)).map Prod.fst)
      ∧ (scan (fun _ => demoScanData) { parameters := none }).1.parameters
          = some ((scan (fun _ => demoScanData) { parameters := none }).2))
    ∧ (scan (fun _ => demoScanData) { parameters := none }).2 = "8740,700" :=
  ⟨scan_filters_valid_ids (fun _ => demoScanData) { parameters := none } (by decide),
   by decide⟩

/-- Claim C9: when no ID of the scan response has a non-empty `value`, the
discovered parameter set is the empty string; a `state()` call from the
uncached state performs the scan and then queries with an empty `Parameter`
filter, and a subsequent `state()` call queries with the empty filter without
scanning again. -/
theorem scan_all_invalid_empty (respond : Req → RawMap)
    (h : ∀ kv ∈ respond scanRequest, entryValid kv.2 = false) :
    scanParams (respond scanRequest) = ""
    ∧ state respond { parameters := none }
        = ({ parameters := some "" }, 1, [scanRequest, stateRequest ""])
    ∧ state respond { parameters := some "" }
        = ({ parameters := some "" }, 0, [stateRequest ""]) := by
  have hempty : scanParams (respond scanRequest) = "" := by
    have hfilter : (respond scanRequest).filter (fun kv => !entryValid kv.2)
        = respond scanRequest := by
      apply List.filter_eq_self.mpr
      intro kv hkv
      simp [h kv hkv]
    show String.intercalate ","
        (((((respond scanRequest).filter (fun kv => !entryValid kv.2)).map Prod.fst).foldl
          popKey (respond scanRequest)).map Prod.fst)
      = ""
    rw [hfilter, foldl_popKey_all_keys]
    rfl
  refine ⟨hempty, ?_, rfl⟩
  show (let r := scan respond { parameters := none };
        (r.1, 1, [scanRequest, stateRequest r.2]))
      = ({ parameters := some "" }, 1, [scanRequest, stateRequest ""])
  simp [scan, hempty]

/-- Witness for C9: a scan response whose two entries have an absent and an
empty value produces the empty parameter set and the empty `Parameter`
filter. -/
theorem scan_all_invalid_empty_witness :
    scanParams ((fun _ => [("8740", { value := none }), ("710", { value := some "" })])
        (scanRequest : Req)) = ""
    ∧ state (fun _ => [("8740", { value := none }), ("710", { value := some "" })])
        { parameters := none }
        = ({ parameters := some "" }, 1, [scanRequest, stateRequest ""])
    ∧ state (fun _ => [("8740", { value := none }), ("710", { value := some "" })])
        { parameters := some "" }
        = ({ parameters := some "" }, 0, [stateRequest ""]) :=
  scan_all_invalid_empty
    (fun _ => [("8740", { value := none }), ("710", { value := some "" })])
    (by decide)

theorem stateN_zero_of_some (respond : Req → RawMap) :
    ∀ (n : Nat) (c : PClient), c.parameters ≠ none → (stateN respond c n).2 = 0 := by
  intro n
  induction n with
  | zero => intro c _; rfl
  | succ n ih =>
      intro c hc
      cases hps : c.parameters with
      | none => exact absurd hps hc
      | some ps =>
          have hstate : state respond c = (c, 0, [stateRequest ps]) := by
            unfold state
            rw [hps]
          show ((stateN respond (state respond c).1 n).1,
              (state respond c).2.1 + (stateN respond (state respond c).1 n).2).2 = 0
          rw [hstate]
          simpa using ih c hc

/-- Claim C2: `state()` calls `scan()` exactly once when no parameter set is
cached and zero times on every subsequent call while a cached value is held;
in every case the transport query it issues carries the cached parameter set
as the `Parameter` query filter. -/
theorem state_scan_exactly_once (respond : Req → RawMap) :
    (∀ n, (stateN respond { parameters := none } (n + 1)).2 = 1)
    ∧ (∀ (c : PClient) (n : Nat), c.parameters ≠ none → (stateN respond c n).2 = 0)
    ∧ (∀ c : PClient, ∃ ps, (state respond c).1.parameters = some ps
        ∧ ((state respond c).2.2).getLast? = some (stateRequest ps)
        ∧ (stateRequest ps).params = some [("Parameter", ps)]) := by
  refine ⟨?_, fun c n hc => stateN_zero_of_some respond n c hc, ?_⟩
  · intro n
    have h1 : (state respond { parameters := none }).1.parameters ≠ none := by
      simp [state, scan]
    have h2 : (stateN respond (state respond { parameters := none }).1 n).2 = 0 :=
      stateN_zero_of_some respond n _ h1
    calc (stateN respond { parameters := none } (n + 1)).2
        = (state respond { parameters := none }).2.1
            + (stateN respond (state respond { parameters := none }).1 n).2 := rfl
      _ = 1 := by rw [h2]; rfl
  · intro c
    cases hps : c.parameters with
    | none =>
        refine ⟨scanParams (respond scanRequest), ?_, ?_, rfl⟩ <;>
          · unfold state
            rw [hps]
            simp [scan]
    | some ps =>
        refine ⟨ps, ?_, ?_, rfl⟩
        · unfold state
          rw [hps]
          exact hps
        · unfold state
          rw [hps]
          simp

/-- Witness for C2: from the uncached state, three consecutive `state()`
calls scan exactly once; from a cached state, two calls scan zero times. -/
theorem state_scan_exactly_once_witness :
    (stateN (fun _ => ([] : RawMap)) { parameters := none } 3).2 = 1
    ∧ (stateN (fun _ => ([] : RawMap)) { parameters := some "710" } 2).2 = 0 :=
  ⟨(state_scan_exactly_once (fun _ => [])).1 2,
   (state_scan_exactly_once (fun _ => [])).2.1 { parameters := some "710" } 2 (by decide)⟩

end BSBLan
